import Mathlib

/-!
# Verification of the task-tracker core (store, filter engine, sort engine, persistence)

Shallow embedding of the client-side state and persistence layer:

* `src/types/task.ts` — the `Task` data model, filter and sort specifications;
* `src/store/taskStore.ts` — the mutation operations of the store (`addTask`,
  `updateTask`, `deleteTask`, `moveTask`, `resetFilters`);
* `src/utils/taskFilters.ts` — the pure filter pipeline (`applyFilters`);
* `src/utils/taskSorters.ts` — the pure sort engine (`applySort`);
* `src/utils/db.ts` — the persistence adapter (`saveTasks`, `loadTasks`).

Modelling conventions:

* JavaScript `number` timestamps are embedded as `Int`.
* Optional fields (`priority?`, `dueDate?`) are `Option`s; a `Partial<Task>`
  patch is a record of `Option`s (`none` = key absent from the patch object).
* JavaScript truthiness matters in several places (`!title?.trim()`, `!id`,
  `!task.dueDate`): an empty string is falsy, and the number `0` is falsy, so
  a `dueDate` equal to `0` is treated by the code as if it were absent.
  `jsTruthyNum` / string-emptiness tests embed those checks faithfully.
* Ambient effects are made explicit parameters: `crypto.randomUUID()` becomes
  a `newId` argument, `Date.now()` a `now` argument, and the un-awaited
  `persistTasks()` call is recorded by a `persistCount` ghost counter on the
  store state.
* The zustand `set` with a partial object merges into the existing state;
  this is embedded as a record update of the `TaskStore` structure.
-/

namespace TaskTracker

/-- `TaskStatus` from `src/types/task.ts`: `"todo" | "inProgress" | "done"`. -/
inductive TaskStatus where
  | todo
  | inProgress
  | done
deriving DecidableEq, Repr

/-- `TaskPriority` from `src/types/task.ts`: `"low" | "medium" | "high"`. -/
inductive TaskPriority where
  | low
  | medium
  | high
deriving DecidableEq, Repr

/-- The `Task` interface from `src/types/task.ts`. `createdAt` and `dueDate`
are millisecond timestamps (JS numbers), embedded as `Int`. -/
structure Task where
  id : String
  title : String
  description : String
  status : TaskStatus
  createdAt : Int
  priority : Option TaskPriority
  dueDate : Option Int
deriving DecidableEq, Repr

/-- The `TaskFilters` interface: `status`/`priority` are the enum value or the
sentinel `"all"`; the sentinel is embedded as `none`. -/
structure TaskFilters where
  search : String
  status : Option TaskStatus
  priority : Option TaskPriority
  showOverdue : Bool
deriving DecidableEq, Repr

/-- `SortField` from `src/types/task.ts`. -/
inductive SortField where
  | createdAt
  | dueDate
  | priority
  | title
deriving DecidableEq, Repr

/-- `SortDirection` from `src/types/task.ts`. -/
inductive SortDirection where
  | asc
  | desc
deriving DecidableEq, Repr

/-- The `SortConfig` interface from `src/types/task.ts`. -/
structure SortConfig where
  field : SortField
  direction : SortDirection
deriving DecidableEq, Repr

/-- Drop leading whitespace characters. (Helper for `jsTrim`.) -/
def dropLeadingWs : List Char → List Char
  | [] => []
  | c :: cs => if c.isWhitespace then dropLeadingWs cs else c :: cs

/-- `String.prototype.trim()`: removes whitespace from both ends. (Embedded
structurally so that it evaluates by `decide`; the `String.trim` of Lean is
extensionally the same on the inputs that matter here.) -/
def jsTrim (s : String) : String :=
  String.mk ((dropLeadingWs (dropLeadingWs s.toList).reverse).reverse)

/-- A JavaScript optional-number test: `undefined` and `0` are falsy, every
other number is truthy. Used to embed `!task.dueDate`. -/
def jsTruthyNum (v : Option Int) : Bool :=
  match v with
  | none => false
  | some n => n != 0

/-- A `Partial<Task>` patch object, as passed to `updateTask`. An outer `none`
means the key is absent from the patch; for the optional fields `priority` and
`dueDate` the inner `Option` is the (possibly `undefined`) value of the field. -/
structure TaskPatch where
  id : Option String
  title : Option String
  description : Option String
  status : Option TaskStatus
  createdAt : Option Int
  priority : Option (Option TaskPriority)
  dueDate : Option (Option Int)
deriving DecidableEq, Repr

/-- The patch with no keys: `Object.keys(updates).length === 0`. -/
def TaskPatch.isEmpty (p : TaskPatch) : Bool :=
  p.id.isNone && p.title.isNone && p.description.isNone && p.status.isNone &&
    p.createdAt.isNone && p.priority.isNone && p.dueDate.isNone

/-- The object-spread merge `{ ...task, ...updates }` from `updateTask`:
every key present in the patch overwrites the corresponding field of the task. -/
def applyPatch (t : Task) (p : TaskPatch) : Task :=
  { id := p.id.getD t.id
    title := p.title.getD t.title
    description := p.description.getD t.description
    status := p.status.getD t.status
    createdAt := p.createdAt.getD t.createdAt
    priority := p.priority.getD t.priority
    dueDate := p.dueDate.getD t.dueDate }

/-- The store state from `src/store/taskStore.ts` (`TaskStore` interface),
with a ghost counter `persistCount` recording each fire-and-forget
`persistTasks()` call. -/
structure TaskStore where
  tasks : List Task
  error : Option String
  isLoading : Bool
  isHydrated : Bool
  filters : TaskFilters
  sortConfig : SortConfig
  persistCount : Nat
deriving DecidableEq, Repr

/-- `DEFAULT_FILTERS` from `src/store/taskStore.ts`. -/
def DEFAULT_FILTERS : TaskFilters :=
  { search := "", status := none, priority := none, showOverdue := false }

/-- `DEFAULT_SORT` from `src/store/taskStore.ts`: newest first by default. -/
def DEFAULT_SORT : SortConfig :=
  { field := SortField.createdAt, direction := SortDirection.desc }

/-- `addTask` from `src/store/taskStore.ts`. `newId` stands for
`crypto.randomUUID()` and `now` for `Date.now()`. The guard `!title?.trim()`
fails exactly when the title trims to the empty string; the thrown error is
caught and written to `error` (zustand `set` merges, so nothing else
changes). On success the new task is appended, `error` cleared, and the
un-awaited `persistTasks()` call recorded. -/
def addTask (s : TaskStore) (title description : String)
    (priority : Option TaskPriority) (dueDate : Option Int)
    (newId : String) (now : Int) : TaskStore :=
  if jsTrim title = "" then
    { s with error := some "Task title is required" }
  else
    let newTask : Task :=
      { id := newId
        title := jsTrim title
        description := jsTrim description
        status := TaskStatus.todo
        createdAt := now
        priority := priority
        dueDate := dueDate }
    { s with
        tasks := s.tasks ++ [newTask]
        error := none
        persistCount := s.persistCount + 1 }

/-- `updateTask` from `src/store/taskStore.ts`: checks existence of the id
first (`tasks.some`), then non-emptiness of the patch, then merges the patch
into the matching task by object spread. The two thrown messages are `"Task
not found"` and `"No updates provided"`. -/
def updateTask (s : TaskStore) (id : String) (updates : TaskPatch) : TaskStore :=
  if ¬ s.tasks.any (fun t => t.id = id) then
    { s with error := some "Task not found" }
  else if updates.isEmpty then
    { s with error := some "No updates provided" }
  else
    { s with
        tasks := s.tasks.map (fun t => if t.id = id then applyPatch t updates else t)
        error := none
        persistCount := s.persistCount + 1 }

/-- `deleteTask` from `src/store/taskStore.ts`: `!id` fails exactly on the
empty string (the only falsy string). -/
def deleteTask (s : TaskStore) (id : String) : TaskStore :=
  if id = "" then
    { s with error := some "Task ID is required" }
  else
    { s with
        tasks := s.tasks.filter (fun t => t.id ≠ id)
        error := none
        persistCount := s.persistCount + 1 }

/-- `moveTask` from `src/store/taskStore.ts`: the guard is
`!id || !newStatus`; `newStatus` is one of the three non-empty status strings,
always truthy, so only `id = ""` can fail. No existence check is performed:
a non-matching id maps every task to itself. -/
def moveTask (s : TaskStore) (id : String) (newStatus : TaskStatus) : TaskStore :=
  if id = "" then
    { s with error := some "Invalid move parameters" }
  else
    { s with
        tasks := s.tasks.map (fun t => if t.id = id then { t with status := newStatus } else t)
        error := none
        persistCount := s.persistCount + 1 }

/-- `resetFilters` from `src/store/taskStore.ts`: a zustand `set` writing
`filters` and `sortConfig` only (merge semantics leave the rest). -/
def resetFilters (s : TaskStore) : TaskStore :=
  { s with filters := DEFAULT_FILTERS, sortConfig := DEFAULT_SORT }

/-- `clearError` from `src/store/taskStore.ts`. -/
def clearError (s : TaskStore) : TaskStore :=
  { s with error := none }

/-! ## Filter engine (`src/utils/taskFilters.ts`) -/

/-- `String.prototype.toLowerCase()`, embedded as per-character lowering. -/
def jsToLower (s : String) : String :=
  String.mk (s.toList.map Char.toLower)

/-- Does `hay` start with `needle`? (Helper for the substring test.) -/
def charsStartsWith (needle hay : List Char) : Bool :=
  match needle, hay with
  | [], _ => true
  | _ :: _, [] => false
  | n :: ns, h :: hs => n == h && charsStartsWith ns hs

/-- Does `needle` occur contiguously in `hay`? -/
def charsIncludes (hay needle : List Char) : Bool :=
  match hay with
  | [] => needle.isEmpty
  | _ :: hs => charsStartsWith needle hay || charsIncludes hs needle

/-- `String.prototype.includes(needle)`. -/
def strIncludes (hay needle : String) : Bool :=
  charsIncludes hay.toList needle.toList

/-- `isOverdue` from the dateHelpers module (`src/unnamed/part_003`):
`return dueDate < Date.now()` — a strict comparison, so a `dueDate` equal to
the current instant is not overdue (as its unit tests also pin down).
`Date.now()` is the explicit `now` argument. -/
def isOverdue (dueDate now : Int) : Bool :=
  dueDate < now

/-- `filterBySearch` from `src/utils/taskFilters.ts`: an empty or
whitespace-only query (`!search || !search.trim()`) returns the input
unchanged; otherwise the un-trimmed lowercased query is matched as a
substring of the lowercased title or description. -/
def filterBySearch (tasks : List Task) (search : String) : List Task :=
  if jsTrim search = "" then tasks
  else
    let query := jsToLower search
    tasks.filter (fun t =>
      strIncludes (jsToLower t.title) query || strIncludes (jsToLower t.description) query)

/-- `filterByStatus` from `src/utils/taskFilters.ts`; `none` is `"all"`. -/
def filterByStatus (tasks : List Task) (status : Option TaskStatus) : List Task :=
  match status with
  | none => tasks
  | some st => tasks.filter (fun t => t.status = st)

/-- `filterByPriority` from `src/utils/taskFilters.ts`; `none` is `"all"`.
A task with no priority matches only the sentinel. -/
def filterByPriority (tasks : List Task) (priority : Option TaskPriority) : List Task :=
  match priority with
  | none => tasks
  | some p => tasks.filter (fun t => t.priority = some p)

/-- `filterOverdue` from `src/utils/taskFilters.ts`: when the flag is on it
keeps tasks with `task.dueDate && isOverdue(task.dueDate)` — the truthiness
test makes a `dueDate` of `0` fail the filter. -/
def filterOverdue (tasks : List Task) (showOverdueOnly : Bool) (now : Int) : List Task :=
  if showOverdueOnly then
    tasks.filter (fun t => jsTruthyNum t.dueDate && isOverdue (t.dueDate.getD 0) now)
  else tasks

/-- `applyFilters` from `src/utils/taskFilters.ts`: the stages in their fixed
source order search → status → priority → overdue. -/
def applyFilters (tasks : List Task) (filters : TaskFilters) (now : Int) : List Task :=
  filterOverdue
    (filterByPriority
      (filterByStatus
        (filterBySearch tasks filters.search)
        filters.status)
      filters.priority)
    filters.showOverdue now

/-! ## Sort engine (`src/utils/taskSorters.ts`) -/

/-- `getPriorityWeight` with `PRIORITY_WEIGHTS` from `src/utils/taskSorters.ts`:
`high=3, medium=2, low=1`, unset `0` (the `priority ? … : 0` ternary). -/
def getPriorityWeight (priority : Option TaskPriority) : Int :=
  match priority with
  | none => 0
  | some TaskPriority.low => 1
  | some TaskPriority.medium => 2
  | some TaskPriority.high => 3

/-- The `direction === "asc" ? diff : -diff` ternary shared by the
comparators. -/
def dirSign (direction : SortDirection) (diff : Int) : Int :=
  match direction with
  | SortDirection.asc => diff
  | SortDirection.desc => -diff

/-- `String.prototype.localeCompare`, a host API; embedded as the codepoint
lexicographic comparison (a consistent total preorder, which is all the
properties below rely on — the spec only asks for "locale-aware lexicographic
comparison"). -/
def strCompare (a b : String) : Int :=
  if a < b then -1 else if b < a then 1 else 0

/-- `[...tasks].sort(cmp)`: `Array.prototype.sort` is required to be stable
(ES2019) and consistent, and it copies here because the source spreads the
array first. Embedded as the stable insertion sort of Mathlib for the preorder
`cmp a b ≤ 0` ("`a` may stay before `b`"). -/
def jsSortBy (cmp : Task → Task → Int) (tasks : List Task) : List Task :=
  List.insertionSort (fun a b => cmp a b ≤ 0) tasks

/-- The comparator of `sortByCreatedAt` from `src/utils/taskSorters.ts`. -/
def cmpCreatedAt (direction : SortDirection) (a b : Task) : Int :=
  dirSign direction (a.createdAt - b.createdAt)

/-- `sortByCreatedAt` from `src/utils/taskSorters.ts`. -/
def sortByCreatedAt (tasks : List Task) (direction : SortDirection) : List Task :=
  jsSortBy (cmpCreatedAt direction) tasks

/-- The comparator of `sortByDueDate` from `src/utils/taskSorters.ts`. The
`!a.dueDate` tests are JS truthiness: an unset **or zero** `dueDate` is sent
to the end, in both directions; only the numeric branch is flipped by
`desc`. -/
def cmpDueDate (direction : SortDirection) (a b : Task) : Int :=
  if !jsTruthyNum a.dueDate && !jsTruthyNum b.dueDate then 0
  else if !jsTruthyNum a.dueDate then 1
  else if !jsTruthyNum b.dueDate then -1
  else dirSign direction (a.dueDate.getD 0 - b.dueDate.getD 0)

/-- `sortByDueDate` from `src/utils/taskSorters.ts`. -/
def sortByDueDate (tasks : List Task) (direction : SortDirection) : List Task :=
  jsSortBy (cmpDueDate direction) tasks

/-- The comparator of `sortByPriority` from `src/utils/taskSorters.ts`. -/
def cmpPriority (direction : SortDirection) (a b : Task) : Int :=
  dirSign direction (getPriorityWeight a.priority - getPriorityWeight b.priority)

/-- `sortByPriority` from `src/utils/taskSorters.ts`. -/
def sortByPriority (tasks : List Task) (direction : SortDirection) : List Task :=
  jsSortBy (cmpPriority direction) tasks

/-- The comparator of `sortByTitle` from `src/utils/taskSorters.ts`. -/
def cmpTitle (direction : SortDirection) (a b : Task) : Int :=
  dirSign direction (strCompare a.title b.title)

/-- `sortByTitle` from `src/utils/taskSorters.ts`. -/
def sortByTitle (tasks : List Task) (direction : SortDirection) : List Task :=
  jsSortBy (cmpTitle direction) tasks

/-- `applySort` from `src/utils/taskSorters.ts`: strategy dispatch on the
sort field. (The `default: return tasks` branch of the source is unreachable for
a well-typed `SortField`.) -/
def applySort (tasks : List Task) (config : SortConfig) : List Task :=
  match config.field with
  | SortField.createdAt => sortByCreatedAt tasks config.direction
  | SortField.dueDate => sortByDueDate tasks config.direction
  | SortField.priority => sortByPriority tasks config.direction
  | SortField.title => sortByTitle tasks config.direction

/-! ## Persistence adapter (`src/utils/db.ts`)

The IndexedDB world is embedded as `Option (List Task)`: `none` when the
`TaskTrackerDB` database does not exist yet, `some l` when it exists and the
`tasks` object store holds the records `l`. The two failure sources are
explicit booleans: `openFail` (the `indexedDB.open` request errors, i.e.
`initDB` rejects) and a per-operation request/transaction failure.

The `async` control flow matters for `loadTasks`: the body is
`try { const db = await initDB(); return new Promise(...) } catch { return [] }`.
The `await` means an `initDB` rejection is caught — but the promise built
inside the `try` is **returned without `await`**, so when its `getAll`
request errors its rejection happens after the function body has completed
and the `catch` never runs: the error propagates to the caller. -/

/-- `saveTasks` from `src/utils/db.ts`. Returns the `Promise` outcome and the
database state afterwards. On open failure the rethrown error propagates and
the database is untouched. The transaction is clear-then-`add`-each;
`store.add` rejects duplicate primary keys, so duplicate ids abort the
transaction, which rolls back atomically to the prior contents (the open has
still created the database on a first run). On success the store holds
exactly the given tasks. -/
def saveTasks (db : Option (List Task)) (openFail txFail : Bool)
    (tasks : List Task) : Except String Unit × Option (List Task) :=
  if openFail then
    (Except.error "Failed to open database", db)
  else if txFail || !(tasks.map Task.id).Nodup then
    (Except.error "Failed to save tasks", some (db.getD []))
  else
    (Except.ok (), some tasks)

/-- `loadTasks` from `src/utils/db.ts`. Returns the `Promise` outcome and the
database state afterwards. An open failure is caught and degrades to `ok []`
(the database is untouched); a missing database is created empty by the
upgrade handler, so `getAll` returns `[]`; a `getAll` request failure rejects
with `"Failed to load tasks"` and — the un-awaited promise — bypasses the
`catch`, surfacing to the caller. -/
def loadTasks (db : Option (List Task)) (openFail getAllFail : Bool) :
    Except String (List Task) × Option (List Task) :=
  if openFail then
    (Except.ok [], db)
  else if getAllFail then
    (Except.error "Failed to load tasks", some (db.getD []))
  else
    (Except.ok (db.getD []), some (db.getD []))

/-! ## Helper lemmas: the four comparators are consistent total preorders -/

/-- `jsSortBy` permutes its input (any comparator). -/
theorem jsSortBy_perm (cmp : Task → Task → Int) (l : List Task) :
    (jsSortBy cmp l).Perm l :=
  List.perm_insertionSort _ l

/-- `jsSortBy` output is sorted for the preorder `cmp a b ≤ 0`, given a
consistent comparator. -/
theorem jsSortBy_sorted (cmp : Task → Task → Int)
    (htot : ∀ a b, cmp a b ≤ 0 ∨ cmp b a ≤ 0)
    (htrans : ∀ a b c, cmp a b ≤ 0 → cmp b c ≤ 0 → cmp a c ≤ 0)
    (l : List Task) : List.Sorted (fun a b => cmp a b ≤ 0) (jsSortBy cmp l) := by
  haveI : IsTotal Task (fun a b => cmp a b ≤ 0) := ⟨htot⟩
  haveI : IsTrans Task (fun a b => cmp a b ≤ 0) := ⟨htrans⟩
  exact List.sorted_insertionSort _ l

/-- A stable sort with a consistent comparator is idempotent. -/
theorem jsSortBy_idem (cmp : Task → Task → Int)
    (htot : ∀ a b, cmp a b ≤ 0 ∨ cmp b a ≤ 0)
    (htrans : ∀ a b c, cmp a b ≤ 0 → cmp b c ≤ 0 → cmp a c ≤ 0)
    (l : List Task) : jsSortBy cmp (jsSortBy cmp l) = jsSortBy cmp l :=
  (jsSortBy_sorted cmp htot htrans l).insertionSort_eq

theorem cmpCreatedAt_total (dir : SortDirection) (a b : Task) :
    cmpCreatedAt dir a b ≤ 0 ∨ cmpCreatedAt dir b a ≤ 0 := by
  cases dir <;> simp [cmpCreatedAt, dirSign] <;> omega

theorem cmpCreatedAt_trans (dir : SortDirection) (a b c : Task) :
    cmpCreatedAt dir a b ≤ 0 → cmpCreatedAt dir b c ≤ 0 → cmpCreatedAt dir a c ≤ 0 := by
  cases dir <;> simp [cmpCreatedAt, dirSign] <;> omega

theorem cmpPriority_total (dir : SortDirection) (a b : Task) :
    cmpPriority dir a b ≤ 0 ∨ cmpPriority dir b a ≤ 0 := by
  cases dir <;> simp [cmpPriority, dirSign] <;> omega

theorem cmpPriority_trans (dir : SortDirection) (a b c : Task) :
    cmpPriority dir a b ≤ 0 → cmpPriority dir b c ≤ 0 → cmpPriority dir a c ≤ 0 := by
  cases dir <;> simp [cmpPriority, dirSign] <;> omega

theorem cmpDueDate_total (dir : SortDirection) (a b : Task) :
    cmpDueDate dir a b ≤ 0 ∨ cmpDueDate dir b a ≤ 0 := by
  cases dir <;>
    cases ha : jsTruthyNum a.dueDate <;> cases hb : jsTruthyNum b.dueDate <;>
      simp [cmpDueDate, ha, hb, dirSign] <;> omega

theorem cmpDueDate_trans (dir : SortDirection) (a b c : Task) :
    cmpDueDate dir a b ≤ 0 → cmpDueDate dir b c ≤ 0 → cmpDueDate dir a c ≤ 0 := by
  cases dir <;>
    cases ha : jsTruthyNum a.dueDate <;> cases hb : jsTruthyNum b.dueDate <;>
      cases hc : jsTruthyNum c.dueDate <;>
        simp [cmpDueDate, ha, hb, hc, dirSign] <;> omega

theorem strCompare_nonpos (a b : String) : strCompare a b ≤ 0 ↔ a ≤ b := by
  unfold strCompare
  split
  · next h => simp [le_of_lt h]
  · split
    · next h1 h2 => simp [not_le.mpr h2]
    · next h1 h2 => simp [le_of_not_lt h2]

theorem strCompare_nonneg (a b : String) : 0 ≤ strCompare a b ↔ b ≤ a := by
  unfold strCompare
  split
  · next h => simp [not_le.mpr h]
  · split
    · next h1 h2 => simp [le_of_lt h2]
    · next h1 h2 => simp [le_of_not_lt h1]

theorem cmpTitle_total (dir : SortDirection) (a b : Task) :
    cmpTitle dir a b ≤ 0 ∨ cmpTitle dir b a ≤ 0 := by
  cases dir <;> simp only [cmpTitle, dirSign, neg_nonpos, strCompare_nonpos, strCompare_nonneg]
  · exact le_total a.title b.title
  · exact le_total b.title a.title

theorem cmpTitle_trans (dir : SortDirection) (a b c : Task) :
    cmpTitle dir a b ≤ 0 → cmpTitle dir b c ≤ 0 → cmpTitle dir a c ≤ 0 := by
  cases dir <;> simp only [cmpTitle, dirSign, neg_nonpos, strCompare_nonpos, strCompare_nonneg]
  · exact fun h1 h2 => le_trans h1 h2
  · exact fun h1 h2 => le_trans h2 h1

/-! ## Concrete fixtures (used by witnesses and counterexamples) -/

/-- The patch object `{}`. -/
def emptyPatch : TaskPatch :=
  { id := none, title := none, description := none, status := none,
    createdAt := none, priority := none, dueDate := none }

def fixtureTaskA : Task :=
  { id := "a", title := "Write spec", description := "draft the core spec",
    status := TaskStatus.todo, createdAt := 5,
    priority := some TaskPriority.high, dueDate := none }

def fixtureTaskB : Task :=
  { id := "b", title := "Review code", description := "",
    status := TaskStatus.done, createdAt := 3, priority := none, dueDate := some 7 }

def fixtureStore : TaskStore :=
  { tasks := [fixtureTaskA, fixtureTaskB], error := some "previous error",
    isLoading := false, isHydrated := true, filters := DEFAULT_FILTERS,
    sortConfig := DEFAULT_SORT, persistCount := 4 }

/-- A task whose `dueDate` is the number `0` — a falsy value in JavaScript. -/
def taskDueZero : Task :=
  { id := "z", title := "Zero", description := "", status := TaskStatus.todo,
    createdAt := 1, priority := none, dueDate := some 0 }

def taskDueFive : Task :=
  { id := "f", title := "Five", description := "", status := TaskStatus.todo,
    createdAt := 2, priority := none, dueDate := some 5 }

/-! ## Claim theorems -/

/-- **C5** (confirmed). For every task collection `T` and every sort
specification `S` (field in createdAt/dueDate/priority/title, direction asc
or desc), `applySort T S` returns a permutation of `T`, and
`applySort (applySort T S) S = applySort T S`: the stable sort with each of
the four comparators, all of them consistent total preorders, is idempotent
under the same sort. (Non-mutation of the input is inherent in the
embedding: the source spreads `[...tasks]` before sorting, and the embedded
`applySort` is a pure function of its argument.) -/
theorem applySort_perm_and_idempotent (tasks : List Task) (config : SortConfig) :
    (applySort tasks config).Perm tasks ∧
    applySort (applySort tasks config) config = applySort tasks config := by
  obtain ⟨field, dir⟩ := config
  cases field
  · exact ⟨jsSortBy_perm _ _,
      jsSortBy_idem _ (cmpCreatedAt_total dir) (cmpCreatedAt_trans dir) _⟩
  · exact ⟨jsSortBy_perm _ _,
      jsSortBy_idem _ (cmpDueDate_total dir) (cmpDueDate_trans dir) _⟩
  · exact ⟨jsSortBy_perm _ _,
      jsSortBy_idem _ (cmpPriority_total dir) (cmpPriority_trans dir) _⟩
  · exact ⟨jsSortBy_perm _ _,
      jsSortBy_idem _ (cmpTitle_total dir) (cmpTitle_trans dir) _⟩

/-- **C7** (corrected; amended form). In `sortByDueDate` the "goes last" rule
keys on JavaScript truthiness of `dueDate`, so it sends to the end the tasks
whose `dueDate` is unset **or equal to `0`**, in both directions; between two
tasks whose `dueDate` is set and nonzero, the numeric comparison is flipped
by `desc`. Stated as: the output is pairwise ordered so that a task with
truthy `dueDate` never follows one without, and the nonzero due dates are
nondecreasing for `asc` and nonincreasing for `desc`. -/
theorem sortByDueDate_truthy_unset_last (tasks : List Task) (dir : SortDirection) :
    (sortByDueDate tasks dir).Pairwise (fun a b =>
      (jsTruthyNum b.dueDate = true → jsTruthyNum a.dueDate = true) ∧
      (∀ x y, a.dueDate = some x → x ≠ 0 → b.dueDate = some y → y ≠ 0 →
        (dir = SortDirection.asc → x ≤ y) ∧ (dir = SortDirection.desc → y ≤ x))) := by
  have hs := jsSortBy_sorted (cmpDueDate dir) (cmpDueDate_total dir) (cmpDueDate_trans dir) tasks
  refine List.Pairwise.imp ?_ hs
  intro a b h
  constructor
  · intro hb
    by_contra ha
    rw [Bool.not_eq_true] at ha
    simp [cmpDueDate, ha, hb] at h
  · intro x y hax hx hby hy
    have ha : jsTruthyNum a.dueDate = true := by simp [jsTruthyNum, hax, hx]
    have hb : jsTruthyNum b.dueDate = true := by simp [jsTruthyNum, hby, hy]
    cases dir
    · refine ⟨fun _ => ?_, fun hco => absurd hco (by simp)⟩
      simp [cmpDueDate, hax, hby, jsTruthyNum, hx, hy, dirSign] at h
      omega
    · refine ⟨fun hco => absurd hco (by simp), fun _ => ?_⟩
      simp [cmpDueDate, hax, hby, jsTruthyNum, hx, hy, dirSign] at h
      omega

/-- **C7 counterexample.** On the collection `[taskDueZero, taskDueFive]`,
both tasks **have** a `dueDate` (`0` and `5`), yet the ascending due-date
sort returns them as `[5, 0]` rather than `[0, 5]`: the claim as stated (the
numeric comparison applies whenever both tasks have a `dueDate`) is false,
because `!a.dueDate` is true for the falsy number `0`. -/
theorem sortByDueDate_zero_dueDate_cex :
    taskDueZero.dueDate = some 0 ∧ taskDueFive.dueDate = some 5 ∧
    (sortByDueDate [taskDueZero, taskDueFive] SortDirection.asc).map Task.dueDate
      = [some 5, some 0] ∧
    ¬ (sortByDueDate [taskDueZero, taskDueFive] SortDirection.asc).map Task.dueDate
      = [some 0, some 5] := by
  decide

/-! ## Filter conjunction characterization -/

/-- The search criterion as a single predicate: an empty or whitespace-only
query matches everything, otherwise case-insensitive substring match on the
title or the description. -/
def searchMatches (search : String) (t : Task) : Bool :=
  jsTrim search = "" ||
    (strIncludes (jsToLower t.title) (jsToLower search) ||
      strIncludes (jsToLower t.description) (jsToLower search))

/-- The status criterion as a single predicate (`none` = `"all"`). -/
def statusMatches (status : Option TaskStatus) (t : Task) : Bool :=
  match status with
  | none => true
  | some st => t.status = st

/-- The priority criterion as a single predicate (`none` = `"all"`). -/
def priorityMatches (priority : Option TaskPriority) (t : Task) : Bool :=
  match priority with
  | none => true
  | some p => t.priority = some p

/-- The overdue criterion as a single predicate: when the flag is off
everything matches; when it is on, the task needs a truthy `dueDate` strictly
before `now`. -/
def overdueMatches (showOverdue : Bool) (now : Int) (t : Task) : Bool :=
  !showOverdue || (jsTruthyNum t.dueDate && isOverdue (t.dueDate.getD 0) now)

/-- The conjunction of all four filter criteria. -/
def matchesFilters (f : TaskFilters) (now : Int) (t : Task) : Bool :=
  searchMatches f.search t && statusMatches f.status t &&
    priorityMatches f.priority t && overdueMatches f.showOverdue now t

theorem filterBySearch_eq_filter (tasks : List Task) (search : String) :
    filterBySearch tasks search = tasks.filter (searchMatches search) := by
  unfold filterBySearch searchMatches
  by_cases h : jsTrim search = ""
  · simp [h]
  · simp [h]

theorem filterByStatus_eq_filter (tasks : List Task) (status : Option TaskStatus) :
    filterByStatus tasks status = tasks.filter (statusMatches status) := by
  cases status
  · exact (List.filter_true tasks).symm
  · rfl

theorem filterByPriority_eq_filter (tasks : List Task) (priority : Option TaskPriority) :
    filterByPriority tasks priority = tasks.filter (priorityMatches priority) := by
  cases priority
  · exact (List.filter_true tasks).symm
  · rfl

theorem filterOverdue_eq_filter (tasks : List Task) (show0 : Bool) (now : Int) :
    filterOverdue tasks show0 now = tasks.filter (overdueMatches show0 now) := by
  cases show0
  · exact (List.filter_true tasks).symm
  · exact List.filter_congr (fun t _ => rfl)

/-- **C4** (confirmed). For every task collection `T`, filter specification
`F` and current time `now`, `applyFilters T F now` — the pipeline in the
fixed source order search → status → priority → overdue — equals the single
stable filter of `T` by the conjunction of the four criteria, and in
particular is a sublist of `T` (the relative order of the surviving elements
of `T` is preserved). -/
theorem applyFilters_eq_filter_conjunction (tasks : List Task) (f : TaskFilters) (now : Int) :
    applyFilters tasks f now = tasks.filter (matchesFilters f now) ∧
    (applyFilters tasks f now).Sublist tasks := by
  have h : applyFilters tasks f now = tasks.filter (matchesFilters f now) := by
    unfold applyFilters
    rw [filterBySearch_eq_filter, filterByStatus_eq_filter, filterByPriority_eq_filter,
      filterOverdue_eq_filter, List.filter_filter, List.filter_filter, List.filter_filter]
    apply List.filter_congr
    intro t _
    unfold matchesFilters
    cases searchMatches f.search t <;> cases statusMatches f.status t <;>
      cases priorityMatches f.priority t <;> cases overdueMatches f.showOverdue now t <;> rfl
  exact ⟨h, h ▸ List.filter_sublist tasks⟩

/-! ## Store mutation theorems -/

/-- Mapping a function that fixes every element of a list is the identity. -/
theorem map_eq_self_of_fixed {F : Task → Task} {l : List Task}
    (h : ∀ t ∈ l, F t = t) : l.map F = l := by
  rw [List.map_congr_left h]
  exact List.map_id l

/-- `Forall₂` between a list and its image under a map, from a pointwise
property. -/
theorem forall₂_map_self {R : Task → Task → Prop} (F : Task → Task)
    (h : ∀ t, R t (F t)) : ∀ l : List Task, List.Forall₂ R l (l.map F)
  | [] => List.Forall₂.nil
  | a :: l => List.Forall₂.cons (h a) (forall₂_map_self F h l)

/-- **C3** (confirmed). Every mutation that fails validation — `add` with a
title trimming to empty, `update` with an id not in the collection or an
empty patch, `delete` with a falsy (empty) id, `move` with a falsy id — sets
the `error` field to its validation message and leaves the rest of the store,
in particular the task collection and the persistence counter, exactly
unchanged: the result is the input store with only `error` replaced. -/
theorem mutations_validate_first (s : TaskStore) :
    (∀ (title description : String) (priority : Option TaskPriority)
        (dueDate : Option Int) (newId : String) (now : Int), jsTrim title = "" →
      addTask s title description priority dueDate newId now
        = { s with error := some "Task title is required" }) ∧
    (∀ (id : String) (updates : TaskPatch), (∀ t ∈ s.tasks, t.id ≠ id) →
      updateTask s id updates = { s with error := some "Task not found" }) ∧
    (∀ (id : String) (updates : TaskPatch), (∃ t ∈ s.tasks, t.id = id) →
      updates.isEmpty = true →
      updateTask s id updates = { s with error := some "No updates provided" }) ∧
    (deleteTask s "" = { s with error := some "Task ID is required" }) ∧
    (∀ newStatus : TaskStatus,
      moveTask s "" newStatus = { s with error := some "Invalid move parameters" }) := by
  refine ⟨?_, ?_, ?_, ?_, ?_⟩
  · intro title description priority dueDate newId now h
    unfold addTask
    rw [if_pos h]
  · intro id updates h
    unfold updateTask
    rw [if_pos]
    simp only [List.any_eq_true, decide_eq_true_eq, not_exists, not_and]
    exact fun t ht => h t ht
  · intro id updates hmem hempty
    unfold updateTask
    rw [if_neg, if_pos hempty]
    simp only [List.any_eq_true, decide_eq_true_eq, not_not]
    obtain ⟨t, ht, hid⟩ := hmem
    exact ⟨t, ht, hid⟩
  · unfold deleteTask
    rw [if_pos rfl]
  · intro newStatus
    unfold moveTask
    rw [if_pos rfl]

/-- **C3 witness**: the failing mutations evaluated on a concrete store with
two tasks, including `add("", …)` and `add("   ", …)`. -/
theorem mutations_validate_first_witness :
    addTask fixtureStore "" "d" none none "new" 9
      = { fixtureStore with error := some "Task title is required" } ∧
    addTask fixtureStore "   " "d" none none "new" 9
      = { fixtureStore with error := some "Task title is required" } ∧
    updateTask fixtureStore "zz" { emptyPatch with title := some "x" }
      = { fixtureStore with error := some "Task not found" } ∧
    updateTask fixtureStore "a" emptyPatch
      = { fixtureStore with error := some "No updates provided" } ∧
    deleteTask fixtureStore "" = { fixtureStore with error := some "Task ID is required" } ∧
    moveTask fixtureStore "" TaskStatus.done
      = { fixtureStore with error := some "Invalid move parameters" } :=
  ⟨(mutations_validate_first fixtureStore).1 "" "d" none none "new" 9 (by decide),
   (mutations_validate_first fixtureStore).1 "   " "d" none none "new" 9 (by decide),
   (mutations_validate_first fixtureStore).2.1 "zz" _ (by decide),
   (mutations_validate_first fixtureStore).2.2.1 "a" emptyPatch
     ⟨fixtureTaskA, by decide, by decide⟩ (by decide),
   (mutations_validate_first fixtureStore).2.2.2.1,
   (mutations_validate_first fixtureStore).2.2.2.2 TaskStatus.done⟩

/-- **C1** (corrected; amended form). `updateTask` merges the patch by object
spread without stripping any key, so `id` and `createdAt` are preserved for
every task exactly when the patch does not carry those keys: for any patch
with no `id` and no `createdAt` key, the `id` and `createdAt` of every task
in the collection are unchanged by the operation (on both the validation
failure paths and the merge path). -/
theorem updateTask_keeps_id_createdAt (s : TaskStore) (id : String) (p : TaskPatch)
    (hid : p.id = none) (hca : p.createdAt = none) :
    (updateTask s id p).tasks.map Task.id = s.tasks.map Task.id ∧
    (updateTask s id p).tasks.map Task.createdAt = s.tasks.map Task.createdAt := by
  have htasks : (updateTask s id p).tasks = s.tasks ∨
      (updateTask s id p).tasks
        = s.tasks.map (fun t => if t.id = id then applyPatch t p else t) := by
    unfold updateTask
    split
    · exact Or.inl rfl
    · split
      · exact Or.inl rfl
      · exact Or.inr rfl
  rcases htasks with h | h
  · rw [h]; exact ⟨rfl, rfl⟩
  · rw [h, List.map_map, List.map_map]
    constructor <;>
    · apply List.map_congr_left
      intro t _
      by_cases hteq : t.id = id <;> simp [hteq, Function.comp, applyPatch, hid, hca]

/-- **C1 witness**: a patch carrying only a `title` key leaves ids and
creation timestamps of both tasks unchanged. -/
theorem updateTask_keeps_id_createdAt_witness :
    ({ emptyPatch with title := some "New title" } : TaskPatch).id = none ∧
    ({ emptyPatch with title := some "New title" } : TaskPatch).createdAt = none ∧
    ((updateTask fixtureStore "a" { emptyPatch with title := some "New title" }).tasks.map
        Task.id = fixtureStore.tasks.map Task.id ∧
      (updateTask fixtureStore "a" { emptyPatch with title := some "New title" }).tasks.map
        Task.createdAt = fixtureStore.tasks.map Task.createdAt) :=
  ⟨rfl, rfl,
    updateTask_keeps_id_createdAt fixtureStore "a"
      { emptyPatch with title := some "New title" } rfl rfl⟩

/-- The patch `{ createdAt: 42 }`. -/
def patchSetCreatedAt : TaskPatch := { emptyPatch with createdAt := some 42 }

/-- **C1 counterexample.** The claim quantifies over every call
`update(id, patch)`; the code applies the patch verbatim, so the patch
`{ createdAt: 42 }` on the existing task `"a"` (created at `5`) changes its
`createdAt` — the field is not excluded from the merge. -/
theorem updateTask_can_change_createdAt_cex :
    (updateTask fixtureStore "a" patchSetCreatedAt).tasks.map Task.createdAt ≠
      fixtureStore.tasks.map Task.createdAt ∧
    (updateTask fixtureStore "a" patchSetCreatedAt).tasks.map Task.createdAt = [42, 3] ∧
    fixtureStore.tasks.map Task.createdAt = [5, 3] := by
  decide

/-- **C8** (confirmed). For every store whose collection contains a task with
(non-falsy) id `i` and every status `s`, `moveTask i s` relates the old and
new collections pointwise: every task with a different id is returned
entirely unchanged, and the tasks with id `i` keep every field — id, title,
description, createdAt, priority, dueDate — byte for byte, with only `status`
set to `s`. (`Forall₂` also forces the two collections to have the same
length, so no task is added or dropped.) -/
theorem moveTask_changes_only_status (s : TaskStore) (id : String)
    (newStatus : TaskStatus) (hid : id ≠ "") (_hmem : ∃ t ∈ s.tasks, t.id = id) :
    List.Forall₂ (fun told tnew =>
        (told.id ≠ id → tnew = told) ∧
        (told.id = id → tnew.id = told.id ∧ tnew.title = told.title ∧
          tnew.description = told.description ∧ tnew.createdAt = told.createdAt ∧
          tnew.priority = told.priority ∧ tnew.dueDate = told.dueDate ∧
          tnew.status = newStatus))
      s.tasks (moveTask s id newStatus).tasks := by
  have h : (moveTask s id newStatus).tasks
      = s.tasks.map (fun t => if t.id = id then { t with status := newStatus } else t) := by
    unfold moveTask
    rw [if_neg hid]
  rw [h]
  apply forall₂_map_self
  intro t
  by_cases hteq : t.id = id <;> simp [hteq]

/-- **C8 witness**: moving the concrete task `"a"` to `inProgress`. -/
theorem moveTask_changes_only_status_witness :
    List.Forall₂ (fun told tnew =>
        (told.id ≠ "a" → tnew = told) ∧
        (told.id = "a" → tnew.id = told.id ∧ tnew.title = told.title ∧
          tnew.description = told.description ∧ tnew.createdAt = told.createdAt ∧
          tnew.priority = told.priority ∧ tnew.dueDate = told.dueDate ∧
          tnew.status = TaskStatus.inProgress))
      fixtureStore.tasks (moveTask fixtureStore "a" TaskStatus.inProgress).tasks :=
  moveTask_changes_only_status fixtureStore "a" TaskStatus.inProgress (by decide)
    ⟨fixtureTaskA, by decide, by decide⟩

/-- **C9** (confirmed). `moveTask` performs no existence check: for every
store in which no task has the non-empty id `i`, `moveTask i s` succeeds —
the collection is unchanged, `error` is set to `null` (erasing any prior
error), and one persistence call is fired — whereas `updateTask` with the
same missing id fails with the `"Task not found"` error and changes nothing
else. -/
theorem moveTask_missing_id_no_error (s : TaskStore) (id : String)
    (newStatus : TaskStatus) (p : TaskPatch) (hid : id ≠ "")
    (habs : ∀ t ∈ s.tasks, t.id ≠ id) :
    moveTask s id newStatus
      = { s with error := none, persistCount := s.persistCount + 1 } ∧
    (moveTask s id newStatus).tasks = s.tasks ∧
    updateTask s id p = { s with error := some "Task not found" } := by
  have hmap : s.tasks.map
      (fun t => if t.id = id then { t with status := newStatus } else t) = s.tasks :=
    map_eq_self_of_fixed (fun t ht => if_neg (habs t ht))
  have hmove : moveTask s id newStatus
      = { s with error := none, persistCount := s.persistCount + 1 } := by
    unfold moveTask
    rw [if_neg hid, hmap]
  refine ⟨hmove, by rw [hmove], ?_⟩
  unfold updateTask
  rw [if_pos]
  simp only [List.any_eq_true, decide_eq_true_eq, not_exists, not_and]
  exact fun t ht => habs t ht

/-- **C9 witness**: moving the absent id `"ghost"` on the concrete store. -/
theorem moveTask_missing_id_no_error_witness :
    moveTask fixtureStore "ghost" TaskStatus.done
      = { fixtureStore with error := none, persistCount := fixtureStore.persistCount + 1 } ∧
    (moveTask fixtureStore "ghost" TaskStatus.done).tasks = fixtureStore.tasks ∧
    updateTask fixtureStore "ghost" { emptyPatch with title := some "x" }
      = { fixtureStore with error := some "Task not found" } :=
  moveTask_missing_id_no_error fixtureStore "ghost" TaskStatus.done
    { emptyPatch with title := some "x" } (by decide) (by decide)

/-- **C10** (confirmed). `resetFilters` resets both the filter specification
— search `""`, status `"all"` (embedded `none`), priority `"all"`, overdue
flag off — and the sort configuration — `createdAt` descending — and leaves
the task collection and the error field unchanged (the zustand `set` writes
only `filters` and `sortConfig`). -/
theorem resetFilters_resets_filters_and_sort (s : TaskStore) :
    (resetFilters s).filters.search = "" ∧
    (resetFilters s).filters.status = none ∧
    (resetFilters s).filters.priority = none ∧
    (resetFilters s).filters.showOverdue = false ∧
    (resetFilters s).sortConfig.field = SortField.createdAt ∧
    (resetFilters s).sortConfig.direction = SortDirection.desc ∧
    (resetFilters s).filters = DEFAULT_FILTERS ∧
    (resetFilters s).sortConfig = DEFAULT_SORT ∧
    (resetFilters s).tasks = s.tasks ∧
    (resetFilters s).error = s.error :=
  ⟨rfl, rfl, rfl, rfl, rfl, rfl, rfl, rfl, rfl, rfl⟩

/-! ## Persistence adapter theorems -/

/-- **C2** (corrected; amended form). `loadTasks` returns the full persisted
collection on success, and returns an empty collection — not an error — when
no database exists yet (first run) and when opening the database fails (the
`await initDB()` rejection is caught). But a failure of the read request
itself is surfaced to the caller as the rejection `"Failed to load tasks"`,
because the promise built inside the `try` block is returned without `await`,
so its later rejection bypasses the `catch`. -/
theorem loadTasks_error_policy (db : Option (List Task)) (openFail getAllFail : Bool) :
    (openFail = true → (loadTasks db openFail getAllFail).1 = Except.ok []) ∧
    (db = none → getAllFail = false →
      (loadTasks db openFail getAllFail).1 = Except.ok []) ∧
    (openFail = false → getAllFail = false →
      (loadTasks db openFail getAllFail).1 = Except.ok (db.getD [])) ∧
    (openFail = false → getAllFail = true →
      (loadTasks db openFail getAllFail).1 = Except.error "Failed to load tasks") := by
  refine ⟨?_, ?_, ?_, ?_⟩
  · intro h
    simp [loadTasks, h]
  · intro hdb hga
    cases openFail <;> simp [loadTasks, hdb, hga]
  · intro ho hga
    simp [loadTasks, ho, hga]
  · intro ho hga
    simp [loadTasks, ho, hga]

/-- **C2 witness**: the three no-error paths and the error path evaluated at
concrete database states. -/
theorem loadTasks_error_policy_witness :
    (loadTasks (some [fixtureTaskA]) true false).1 = Except.ok [] ∧
    (loadTasks none false false).1 = Except.ok [] ∧
    (loadTasks (some [fixtureTaskA]) false false).1 = Except.ok [fixtureTaskA] ∧
    (loadTasks (some [fixtureTaskA]) false true).1 = Except.error "Failed to load tasks" :=
  ⟨(loadTasks_error_policy (some [fixtureTaskA]) true false).1 rfl,
   (loadTasks_error_policy none false false).2.1 rfl rfl,
   (loadTasks_error_policy (some [fixtureTaskA]) false false).2.2.1 rfl rfl,
   (loadTasks_error_policy (some [fixtureTaskA]) false true).2.2.2 rfl rfl⟩

/-- **C2 counterexample.** On a database that exists and holds a task, a
failing `getAll` request makes `loadTasks` reject with
`"Failed to load tasks"` — an error reaches the caller on a read failure,
contradicting "returns an empty collection — never an error to its caller —
… on any read failure". -/
theorem loadTasks_read_failure_surfaces_error_cex :
    (loadTasks (some [fixtureTaskB]) false true).1 = Except.error "Failed to load tasks" ∧
    (loadTasks (some [fixtureTaskB]) false true).1 ≠ Except.ok [] :=
  ⟨rfl, fun h => nomatch h⟩

/-- **C6** (confirmed). For every task collection `X` with distinct ids —
including the empty collection — and every prior database state, a
successful `saveTasks X` replaces the persisted collection with exactly `X`,
and a subsequent successful `loadTasks` returns a collection equal to `X` up
to ordering. -/
theorem saveTasks_then_loadTasks_roundtrip (X : List Task) (db : Option (List Task))
    (hids : (X.map Task.id).Nodup) :
    (saveTasks db false false X).1 = Except.ok () ∧
    ∃ l, (loadTasks (saveTasks db false false X).2 false false).1 = Except.ok l ∧
      l.Perm X := by
  have hsave : saveTasks db false false X = (Except.ok (), some X) := by
    unfold saveTasks
    simp [hids]
  rw [hsave]
  exact ⟨rfl, X, rfl, List.Perm.refl X⟩

/-- **C6 witness**: the round trip evaluated on a two-task collection over a
missing database, and on the empty collection over a non-empty database. -/
theorem saveTasks_then_loadTasks_roundtrip_witness :
    ((saveTasks none false false [fixtureTaskA, fixtureTaskB]).1 = Except.ok () ∧
      ∃ l, (loadTasks (saveTasks none false false [fixtureTaskA, fixtureTaskB]).2
          false false).1 = Except.ok l ∧ l.Perm [fixtureTaskA, fixtureTaskB]) ∧
    ((saveTasks (some [fixtureTaskA]) false false ([] : List Task)).1 = Except.ok () ∧
      ∃ l, (loadTasks (saveTasks (some [fixtureTaskA]) false false ([] : List Task)).2
          false false).1 = Except.ok l ∧ l.Perm ([] : List Task)) :=
  ⟨saveTasks_then_loadTasks_roundtrip [fixtureTaskA, fixtureTaskB] none (by decide),
   saveTasks_then_loadTasks_roundtrip [] (some [fixtureTaskA]) (by decide)⟩

end TaskTracker
